import Mathlib

/-!
Shallow embedding of the TEA5767 FM-radio I2C driver
(src/ino/tea5767_i2c/tea5767_i2c.h).

The repository ships only the class header: the macro constants, the field
list of the `tea5767_i2c` class and the Doxygen documentation of every
member function; the member bodies live in a `.cpp`/`.ino` file that is not
part of the repository snapshot.  The constants and the state record below
are embedded directly from the header.  Every operation is modelled from
the spec and from the header's own documentation comments, as noted on each
definition.

Frequencies are modelled as rationals.  All the frequency constants of the
header (76.0, 91.0, 87.5, 108.0) are exactly representable and the driver
only compares, adds and clamps frequencies, so the rational model agrees
with the C `float` computations on the values of interest.  Bytes are
modelled as naturals reduced mod 256, bit fields by division and remainder
by powers of two.
-/

/-! ### Constants from the header (MACROS AND DEFINES, lines 21-31) -/

def DUMY_LED_PIN : ℕ := 0

def MAX_FREQ_JP : ℚ := 91.0

def MAX_FREQ_EU : ℚ := 108.0

def MIN_FREQ_JP : ℚ := 76.0

def MIN_FREQ_EU : ℚ := 87.5

def JP_BAND : ℕ := 1

def EU_BAND : ℕ := 0

def ADC_LOW : ℕ := 5

def ADC_MID : ℕ := 7

def ADC_HIGH : ℕ := 10

def TEA5767_REGISTERS : ℕ := 5

/-! ### Driver state: the private data members of class tea5767_i2c -/

/-- The private data members of class `tea5767_i2c` (header lines 186-202),
one field each, in the header's order.  `uint8_t` members are naturals,
the `float _frequency` member is a rational. -/
structure tea5767_i2c where
  _address : ℕ
  _mute_mode : ℕ
  _band_mode : ℕ
  _standby : ℕ
  _searchMode : ℕ
  _searchUpDown : ℕ
  _searchLevel : ℕ
  _stereoMode : ℕ
  _muteLmode : ℕ
  _muteRmode : ℕ
  _stereoNoiseCancelling : ℕ
  _softMuteMode : ℕ
  _hpfMode : ℕ
  _isReady : ℕ
  _isStereo : ℕ
  _stationLevel : ℕ
  _frequency : ℚ
deriving Repr, DecidableEq

/-- Modelled from the spec: search-direction value meaning "search down",
used by `tea5767_setStationInc`; the `TEA5767_SEARCH_DOWN` constant is
named in the header documentation of `tea5767_setSearch` but its value is
not in the repository snapshot. -/
def TEA5767_SEARCH_DOWN : ℕ := 0

/-- Modelled from the spec: search-direction value meaning "search up",
companion of `TEA5767_SEARCH_DOWN`. -/
def TEA5767_SEARCH_UP : ℕ := 1

/-! ### Operations -/

/-- Modelled from the spec: the body of `tea5767_checkFreqLimits` is not in
the repository snapshot.  Per the header documentation (lines 177-184) it
"checks if the given frequency is within the limits of the current band
mode of the radio, and adjusts it if necessary", returning "the frequency
adjusted if it is out of bounds for the current band mode, or the original
frequency if it is within bounds", the band limits being the
`MIN_FREQ_JP`/`MAX_FREQ_JP` and `MIN_FREQ_EU`/`MAX_FREQ_EU` constants
selected by the `_band_mode` field. -/
def tea5767_checkFreqLimits (s : tea5767_i2c) (freq : ℚ) : ℚ :=
  if s._band_mode = JP_BAND then
    if freq < MIN_FREQ_JP then MIN_FREQ_JP
    else if freq > MAX_FREQ_JP then MAX_FREQ_JP
    else freq
  else
    if freq < MIN_FREQ_EU then MIN_FREQ_EU
    else if freq > MAX_FREQ_EU then MAX_FREQ_EU
    else freq

/-- Spec-side definition (not from the code): the lower tuning bound of a
band mode, for comparison with `tea5767_checkFreqLimits`. -/
def bandMin (band : ℕ) : ℚ :=
  if band = JP_BAND then MIN_FREQ_JP else MIN_FREQ_EU

/-- Spec-side definition (not from the code): the upper tuning bound of a
band mode, for comparison with `tea5767_checkFreqLimits`. -/
def bandMax (band : ℕ) : ℚ :=
  if band = JP_BAND then MAX_FREQ_JP else MAX_FREQ_EU

/-- Modelled from the spec: the 14-bit PLL word the chip datasheet derives
from a frequency in MHz and that the missing `tea5767_write_registers`
body computes, `N = 4 * (f * 1000000 + 225000) / 32768` truncated to an
integer (high-side injection with a 225 kHz intermediate frequency and a
32768 Hz reference). -/
def pllWord (freq : ℚ) : ℕ :=
  (Int.floor ((freq * 1000000 + 225000) * 4 / 32768)).toNat

/-- Modelled from the spec: the body of `tea5767_write_registers` is not in
the repository snapshot.  Per the header (lines 160-168) it writes all five
bytes to the chip, "the data from the radio variable is modified to fit the
memory map of TEA5767": byte 1 packs the mute flag, the search-mode flag
and the upper 6 PLL bits; byte 2 the lower 8 PLL bits; byte 3 the search
direction, search level, mono flag and channel mutes; byte 4 standby, band,
crystal, soft mute, high-pass and stereo-noise-cancelling flags; byte 5 is
zero.  The returned list is the byte sequence put on the bus. -/
def tea5767_write_registers (s : tea5767_i2c) : List ℕ :=
  let pll := pllWord s._frequency
  [ (s._mute_mode % 2) * 128 + (s._searchMode % 2) * 64 + pll / 256 % 64,
    pll % 256,
    (s._searchUpDown % 2) * 128 + (s._searchLevel % 4) * 32 +
      (s._stereoMode % 2) * 8 + (s._muteRmode % 2) * 4 + (s._muteLmode % 2) * 2,
    (s._standby % 2) * 64 + (s._band_mode % 2) * 32 + 16 +
      (s._softMuteMode % 2) * 8 + (s._hpfMode % 2) * 4 +
      (s._stereoNoiseCancelling % 2) * 2,
    0 ]

/-- Modelled from the spec: the body of `tea5767_read_raw` is not in the
repository snapshot.  Per the header (lines 149-157) it reads five raw
bytes from the chip into the buffer, `TEA5767_REGISTERS` amount.  The bus
is modelled as the function giving the i-th byte the device returns. -/
def tea5767_read_raw (bus : ℕ → ℕ) : List ℕ :=
  (List.range TEA5767_REGISTERS).map (fun i => bus i % 256)

/-- Modelled from the spec: the frequency decoding done by
`tea5767_getStation`, inverting the PLL word packing: the lower 6 bits of
read byte 1 and all 8 bits of read byte 2 form the 14-bit PLL word `N`,
and the frequency in MHz is `(N * 32768 / 4 - 225000) / 1000000`. -/
def decodeFreq (hi lo : ℕ) : ℚ :=
  ((((hi % 64) * 256 + lo : ℕ) : ℚ) * 32768 / 4 - 225000) / 1000000

/-- Modelled from the spec: the body of `tea5767_getStation` is not in the
repository snapshot.  Per the header (lines 58-65) it "reads the raw data
from the radio using the tea5767_read_raw() function, extracts the
frequency values from the read buffer, and calculates the frequency in
MHz", which it returns; the driver state is not changed. -/
def tea5767_getStation (s : tea5767_i2c) (bus : ℕ → ℕ) : tea5767_i2c × ℚ :=
  let buf := tea5767_read_raw bus
  (s, decodeFreq (buf.getD 0 0) (buf.getD 1 0))

/-- Modelled from the spec: the body of `tea5767_getReady` is not in the
repository snapshot.  It reads the five status bytes and returns the ready
flag, the most significant bit of status byte 1, recording it in the
`_isReady` field. -/
def tea5767_getReady (s : tea5767_i2c) (bus : ℕ → ℕ) : tea5767_i2c × ℕ :=
  let buf := tea5767_read_raw bus
  let ready := buf.getD 0 0 / 128
  ({ s with _isReady := ready }, ready)

/-- Modelled from the spec: the body of `printStatus` is not in the
repository snapshot.  The driver "decodes status bits (stereo lock, signal
level, ready flag) from the chip's response": it reads the five status
bytes and stores the ready flag (bit 7 of byte 1), the stereo flag (bit 7
of byte 3) and the signal level (upper 4 bits of byte 4) into the
`_isReady`, `_isStereo` and `_stationLevel` fields. -/
def printStatus (s : tea5767_i2c) (bus : ℕ → ℕ) : tea5767_i2c :=
  let buf := tea5767_read_raw bus
  { s with
    _isReady := buf.getD 0 0 / 128,
    _isStereo := buf.getD 2 0 / 128,
    _stationLevel := buf.getD 3 0 / 16 }

/-- Modelled from the spec: the body of `tea5767_setStation` is not in the
repository snapshot.  Per the header (lines 84-92), it "sets the frequency
of the tuner to the given value.  If the frequency is out of range for the
current band mode, it will be adjusted to the nearest valid frequency.
After setting the frequency, the new value will be written to the tuner
through the tea5767_write_registers function."  Returns the new driver
state and the bytes written to the bus. -/
def tea5767_setStation (s : tea5767_i2c) (freq : ℚ) : tea5767_i2c × List ℕ :=
  let t := { s with _frequency := tea5767_checkFreqLimits s freq }
  (t, tea5767_write_registers t)

/-- Modelled from the spec: the body of `tea5767_setStationInc` is not in
the repository snapshot.  Per the header (lines 94-103), "if the given
value is negative, the search mode is set to down, otherwise the search
mode is set to up.  The frequency is then incremented by the given value,
but it is first checked to ensure that it is within the frequency limits
specified by the radio's band mode.  The resulting frequency is then
written to the radio using the tea5767_write_registers function." -/
def tea5767_setStationInc (s : tea5767_i2c) (freq : ℚ) : tea5767_i2c × List ℕ :=
  let t := { s with
    _searchUpDown := if freq < 0 then TEA5767_SEARCH_DOWN else TEA5767_SEARCH_UP,
    _frequency := tea5767_checkFreqLimits s (s._frequency + freq) }
  (t, tea5767_write_registers t)

/-- Modelled from the spec: the body of `tea5767_setSearch` is not in the
repository snapshot.  Per the header (lines 67-82) it "updates the values
of the structure with the given search mode and search direction and then
writes them to the tuner using the tea5767_write_registers() function". -/
def tea5767_setSearch (s : tea5767_i2c) (searchMode searchUpDown : ℕ) :
    tea5767_i2c × List ℕ :=
  let t := { s with _searchMode := searchMode, _searchUpDown := searchUpDown }
  (t, tea5767_write_registers t)

/-- Modelled from the spec: the body of `tea5767_setMute` is not in the
repository snapshot.  Per the header (lines 105-111) it sets the mute mode
to the given value and calls `tea5767_write_registers`. -/
def tea5767_setMute (s : tea5767_i2c) (mute : Bool) : tea5767_i2c × List ℕ :=
  let t := { s with _mute_mode := if mute then 1 else 0 }
  (t, tea5767_write_registers t)

/-- Modelled from the spec: the body of `tea5767_setSoftMute` is not in the
repository snapshot.  Per the header (lines 113-119) it sets the soft mute
mode on or off and writes the registers. -/
def tea5767_setSoftMute (s : tea5767_i2c) (mute : Bool) : tea5767_i2c × List ℕ :=
  let t := { s with _softMuteMode := if mute then 1 else 0 }
  (t, tea5767_write_registers t)

/-- Modelled from the spec: the body of `tea5767_setMuteLeft` is not in the
repository snapshot.  Per the header (lines 121-124) it sets the left
channel mute mode and writes the registers. -/
def tea5767_setMuteLeft (s : tea5767_i2c) (mute : Bool) : tea5767_i2c × List ℕ :=
  let t := { s with _muteLmode := if mute then 1 else 0 }
  (t, tea5767_write_registers t)

/-- Modelled from the spec: the body of `tea5767_setMuteRight` is not in
the repository snapshot.  Per the header (lines 126-129) it sets the right
channel mute mode and writes the registers. -/
def tea5767_setMuteRight (s : tea5767_i2c) (mute : Bool) : tea5767_i2c × List ℕ :=
  let t := { s with _muteRmode := if mute then 1 else 0 }
  (t, tea5767_write_registers t)

/-- Modelled from the spec: the body of `tea5767_setStandby` is not in the
repository snapshot.  Per the header (lines 131-136) it sets the standby
mode and writes the registers. -/
def tea5767_setStandby (s : tea5767_i2c) (standby : Bool) : tea5767_i2c × List ℕ :=
  let t := { s with _standby := if standby then 1 else 0 }
  (t, tea5767_write_registers t)

/-- Modelled from the spec: the body of `tea5767_setStereo` is not in the
repository snapshot.  Per the header (lines 138-143) it sets the stereo
mode and writes the registers. -/
def tea5767_setStereo (s : tea5767_i2c) (stereo : Bool) : tea5767_i2c × List ℕ :=
  let t := { s with _stereoMode := if stereo then 1 else 0 }
  (t, tea5767_write_registers t)

/-- Modelled from the spec: the body of the constructor
`tea5767_i2c::tea5767_i2c(uint8_t band_mode)` is not in the repository
snapshot.  It records the chosen band mode, sets the default I2C address
0x60 documented in the header (line 172) and zero-initialises the control
fields. -/
def tea5767_construct (band_mode : ℕ) : tea5767_i2c :=
  { _address := 0x60
    _mute_mode := 0
    _band_mode := band_mode
    _standby := 0
    _searchMode := 0
    _searchUpDown := TEA5767_SEARCH_UP
    _searchLevel := 1
    _stereoMode := 0
    _muteLmode := 0
    _muteRmode := 0
    _stereoNoiseCancelling := 1
    _softMuteMode := 0
    _hpfMode := 1
    _isReady := 0
    _isStereo := 0
    _stationLevel := 0
    _frequency := 0 }

/-- Modelled from the spec: the default station `begin()` tunes to; the
body of `begin` is not in the repository snapshot. -/
def INIT_FREQ : ℚ := 89.0

/-- Modelled from the spec: the body of `begin` is not in the repository
snapshot.  Per the header (lines 49-56) it initialises the parameters
needed for setup; it tunes the driver to the default station through
`tea5767_setStation`, which clamps it to the band limits and writes the
registers. -/
def tea5767_begin (s : tea5767_i2c) : tea5767_i2c × List ℕ :=
  tea5767_setStation s INIT_FREQ

/-! ### Helper lemmas -/

theorem bandMin_le_bandMax (band : ℕ) : bandMin band ≤ bandMax band := by
  unfold bandMin bandMax
  split_ifs <;> norm_num [MIN_FREQ_JP, MAX_FREQ_JP, MIN_FREQ_EU, MAX_FREQ_EU]

theorem if_clamp_eq_max_min (lo hi f : ℚ) (h : lo ≤ hi) :
    (if f < lo then lo else if f > hi then hi else f) = max lo (min hi f) := by
  rcases lt_or_le f lo with hf | hf
  · rw [if_pos hf, min_eq_right (le_of_lt (lt_of_lt_of_le hf h)),
      max_eq_left (le_of_lt hf)]
  · rw [if_neg (not_lt.mpr hf)]
    rcases lt_or_le hi f with hg | hg
    · rw [if_pos hg, min_eq_left (le_of_lt hg), max_eq_right h]
    · rw [if_neg (not_lt.mpr hg), min_eq_right hg, max_eq_right hf]

theorem checkFreqLimits_eq_clamp (s : tea5767_i2c) (f : ℚ) :
    tea5767_checkFreqLimits s f
      = max (bandMin s._band_mode) (min (bandMax s._band_mode) f) := by
  unfold tea5767_checkFreqLimits bandMin bandMax
  by_cases hb : s._band_mode = JP_BAND
  · rw [if_pos hb, if_pos hb, if_pos hb,
      if_clamp_eq_max_min _ _ _ (by norm_num [MIN_FREQ_JP, MAX_FREQ_JP])]
  · rw [if_neg hb, if_neg hb, if_neg hb,
      if_clamp_eq_max_min _ _ _ (by norm_num [MIN_FREQ_EU, MAX_FREQ_EU])]

/-! ### Claims -/

/-- C1: for every driver state and frequency, `tea5767_checkFreqLimits`
returns the frequency unchanged when it lies within the band's limits,
returns the violated bound when it lies outside them, and never returns a
value outside the band's limits. -/
theorem spec_C1_checkFreqLimits_clamps (s : tea5767_i2c) (f : ℚ) :
    (bandMin s._band_mode ≤ f → f ≤ bandMax s._band_mode →
        tea5767_checkFreqLimits s f = f)
    ∧ (f < bandMin s._band_mode →
        tea5767_checkFreqLimits s f = bandMin s._band_mode)
    ∧ (bandMax s._band_mode < f →
        tea5767_checkFreqLimits s f = bandMax s._band_mode)
    ∧ bandMin s._band_mode ≤ tea5767_checkFreqLimits s f
    ∧ tea5767_checkFreqLimits s f ≤ bandMax s._band_mode := by
  have hmm := bandMin_le_bandMax s._band_mode
  rw [checkFreqLimits_eq_clamp]
  refine ⟨?_, ?_, ?_, ?_, ?_⟩
  · intro h1 h2; rw [min_eq_right h2, max_eq_right h1]
  · intro h; rw [min_eq_right (le_trans h.le hmm), max_eq_left h.le]
  · intro h; rw [min_eq_left h.le, max_eq_right hmm]
  · exact le_max_left _ _
  · exact max_le hmm (min_le_left _ _)

/-- Witness for C1: in the Japanese band, the in-range frequency 80 MHz is
returned unchanged. -/
theorem spec_C1_checkFreqLimits_clamps_witness :
    tea5767_checkFreqLimits (tea5767_construct JP_BAND) 80 = 80 :=
  (spec_C1_checkFreqLimits_clamps (tea5767_construct JP_BAND) 80).1
    (by norm_num [bandMin, tea5767_construct, JP_BAND, MIN_FREQ_JP])
    (by norm_num [bandMax, tea5767_construct, JP_BAND, MAX_FREQ_JP])

/-- C2: the band mode chosen at construction is stored and selects the
tuning bounds used for clamping: JP_BAND (1) gives limits 76.0 to 91.0 MHz
and EU_BAND (0) gives limits 87.5 to 108.0 MHz. -/
theorem spec_C2_band_selects_limits (bm : ℕ) (s : tea5767_i2c) (f : ℚ) :
    (tea5767_construct bm)._band_mode = bm
    ∧ JP_BAND = 1 ∧ EU_BAND = 0
    ∧ MIN_FREQ_JP = 76 ∧ MAX_FREQ_JP = 91
    ∧ MIN_FREQ_EU = 87.5 ∧ MAX_FREQ_EU = 108
    ∧ (s._band_mode = JP_BAND →
        tea5767_checkFreqLimits s f = max 76 (min 91 f))
    ∧ (s._band_mode = EU_BAND →
        tea5767_checkFreqLimits s f = max 87.5 (min 108 f)) := by
  refine ⟨rfl, rfl, rfl, by norm_num [MIN_FREQ_JP], by norm_num [MAX_FREQ_JP],
    rfl, by norm_num [MAX_FREQ_EU], ?_, ?_⟩
  · intro h
    rw [checkFreqLimits_eq_clamp, h]
    norm_num [bandMin, bandMax, JP_BAND, MIN_FREQ_JP, MAX_FREQ_JP]
  · intro h
    rw [checkFreqLimits_eq_clamp, h]
    norm_num [bandMin, bandMax, JP_BAND, EU_BAND, MIN_FREQ_EU, MAX_FREQ_EU]

/-- Witness for C2: a driver constructed in the Japanese band clamps 95 MHz
with the Japanese limits 76 and 91. -/
theorem spec_C2_band_selects_limits_witness :
    tea5767_checkFreqLimits (tea5767_construct JP_BAND) 95 = max 76 (min 91 95) :=
  (spec_C2_band_selects_limits JP_BAND (tea5767_construct JP_BAND) 95).2.2.2.2.2.2.2.1 rfl

/-- C5: every register transaction transfers exactly five bytes:
`tea5767_read_raw` fills its buffer with exactly `TEA5767_REGISTERS` (5)
bytes read from the device and `tea5767_write_registers` writes exactly 5
bytes to the device. -/
theorem spec_C5_five_byte_transactions (s : tea5767_i2c) (bus : ℕ → ℕ) :
    (tea5767_read_raw bus).length = TEA5767_REGISTERS
    ∧ (tea5767_write_registers s).length = TEA5767_REGISTERS
    ∧ TEA5767_REGISTERS = 5 :=
  ⟨rfl, rfl, rfl⟩

/-- C9: each single-flag setter replaces only its own state field before
writing the registers; every other field, the stored frequency and band
mode included, is unchanged. -/
theorem spec_C9_setters_frame (s : tea5767_i2c) (m : Bool) :
    (tea5767_setMute s m).1 = { s with _mute_mode := if m then 1 else 0 }
    ∧ (tea5767_setMute s m).2 = tea5767_write_registers (tea5767_setMute s m).1
    ∧ (tea5767_setSoftMute s m).1 = { s with _softMuteMode := if m then 1 else 0 }
    ∧ (tea5767_setSoftMute s m).2 = tea5767_write_registers (tea5767_setSoftMute s m).1
    ∧ (tea5767_setMuteLeft s m).1 = { s with _muteLmode := if m then 1 else 0 }
    ∧ (tea5767_setMuteLeft s m).2 = tea5767_write_registers (tea5767_setMuteLeft s m).1
    ∧ (tea5767_setMuteRight s m).1 = { s with _muteRmode := if m then 1 else 0 }
    ∧ (tea5767_setMuteRight s m).2 = tea5767_write_registers (tea5767_setMuteRight s m).1
    ∧ (tea5767_setStandby s m).1 = { s with _standby := if m then 1 else 0 }
    ∧ (tea5767_setStandby s m).2 = tea5767_write_registers (tea5767_setStandby s m).1
    ∧ (tea5767_setStereo s m).1 = { s with _stereoMode := if m then 1 else 0 }
    ∧ (tea5767_setStereo s m).2 = tea5767_write_registers (tea5767_setStereo s m).1 :=
  ⟨rfl, rfl, rfl, rfl, rfl, rfl, rfl, rfl, rfl, rfl, rfl, rfl⟩

/-- C4: after `tea5767_setStation freq` the stored frequency equals `freq`
when `freq` is within the current band's limits and otherwise the nearest
valid frequency of the band (the clamp of `freq`), and the bytes put on the
bus are exactly `tea5767_write_registers` of the resulting state. -/
theorem spec_C4_setStation_stores_and_writes (s : tea5767_i2c) (f : ℚ) :
    ((tea5767_setStation s f).1)._frequency
        = max (bandMin s._band_mode) (min (bandMax s._band_mode) f)
    ∧ (bandMin s._band_mode ≤ f → f ≤ bandMax s._band_mode →
        ((tea5767_setStation s f).1)._frequency = f)
    ∧ (tea5767_setStation s f).2
        = tea5767_write_registers (tea5767_setStation s f).1 := by
  refine ⟨?_, ?_, rfl⟩
  · show tea5767_checkFreqLimits s f = _
    exact checkFreqLimits_eq_clamp s f
  · intro h1 h2
    show tea5767_checkFreqLimits s f = f
    rw [checkFreqLimits_eq_clamp, min_eq_right h2, max_eq_right h1]

/-- Witness for C4: tuning a European-band driver to the in-range 100 MHz
stores exactly 100. -/
theorem spec_C4_setStation_stores_and_writes_witness :
    ((tea5767_setStation (tea5767_construct EU_BAND) 100).1)._frequency = 100 :=
  (spec_C4_setStation_stores_and_writes (tea5767_construct EU_BAND) 100).2.1
    (by norm_num [bandMin, tea5767_construct, JP_BAND, EU_BAND, MIN_FREQ_EU])
    (by norm_num [bandMax, tea5767_construct, JP_BAND, EU_BAND, MAX_FREQ_EU])

/-- C6: the driver decodes the status bits of the chip's 5-byte response:
`tea5767_getReady` returns the ready flag (bit 7 of the first byte read by
`tea5767_read_raw`) and records it in `_isReady`, and `printStatus`
extracts the stereo flag (bit 7 of the third byte) into `_isStereo` and
the signal level (upper 4 bits of the fourth byte) into `_stationLevel`. -/
theorem spec_C6_status_decoding (s : tea5767_i2c) (bus : ℕ → ℕ) :
    (tea5767_getReady s bus).2 = (tea5767_read_raw bus).getD 0 0 / 128
    ∧ (tea5767_getReady s bus).2 = bus 0 % 256 / 128
    ∧ ((tea5767_getReady s bus).1)._isReady = (tea5767_getReady s bus).2
    ∧ (printStatus s bus)._isStereo = (tea5767_read_raw bus).getD 2 0 / 128
    ∧ (printStatus s bus)._isStereo = bus 2 % 256 / 128
    ∧ (printStatus s bus)._stationLevel = (tea5767_read_raw bus).getD 3 0 / 16
    ∧ (printStatus s bus)._stationLevel = bus 3 % 256 / 16 :=
  ⟨rfl, rfl, rfl, rfl, rfl, rfl, rfl⟩

/-- C8: `tea5767_setStationInc freq` sets the search direction to down when
`freq` is negative and up otherwise, adds `freq` to the stored frequency,
clamps the sum to the current band's limits, and puts exactly
`tea5767_write_registers` of the resulting state on the bus. -/
theorem spec_C8_setStationInc_behaviour (s : tea5767_i2c) (f : ℚ) :
    ((tea5767_setStationInc s f).1)._searchUpDown
        = (if f < 0 then TEA5767_SEARCH_DOWN else TEA5767_SEARCH_UP)
    ∧ ((tea5767_setStationInc s f).1)._frequency
        = max (bandMin s._band_mode) (min (bandMax s._band_mode) (s._frequency + f))
    ∧ (tea5767_setStationInc s f).2
        = tea5767_write_registers (tea5767_setStationInc s f).1 := by
  refine ⟨rfl, ?_, rfl⟩
  show tea5767_checkFreqLimits s (s._frequency + f) = _
  exact checkFreqLimits_eq_clamp s _

/-- C10: `_frequency` is an invariant of the driver: after `begin` on a
freshly constructed driver and after `tea5767_setStation` or
`tea5767_setStationInc` on any state whose band mode is the one fixed at
construction, the stored frequency lies within that band's limits. -/
theorem spec_C10_frequency_invariant (band : ℕ) (s : tea5767_i2c) (f g : ℚ)
    (h : s._band_mode = band) :
    (bandMin band ≤ ((tea5767_begin (tea5767_construct band)).1)._frequency
      ∧ ((tea5767_begin (tea5767_construct band)).1)._frequency ≤ bandMax band)
    ∧ (bandMin band ≤ ((tea5767_setStation s f).1)._frequency
      ∧ ((tea5767_setStation s f).1)._frequency ≤ bandMax band)
    ∧ (bandMin band ≤ ((tea5767_setStationInc s g).1)._frequency
      ∧ ((tea5767_setStationInc s g).1)._frequency ≤ bandMax band) := by
  have hmm := bandMin_le_bandMax band
  have key : ∀ (t : tea5767_i2c) (x : ℚ), t._band_mode = band →
      bandMin band ≤ tea5767_checkFreqLimits t x
        ∧ tea5767_checkFreqLimits t x ≤ bandMax band := by
    intro t x ht
    rw [checkFreqLimits_eq_clamp, ht]
    exact ⟨le_max_left _ _, max_le hmm (min_le_left _ _)⟩
  exact ⟨key (tea5767_construct band) INIT_FREQ rfl, key s f h,
    key s (s._frequency + g) h⟩

/-- Witness for C10: tuning a European-band driver to the out-of-range
200 MHz still leaves the stored frequency at or above the band minimum. -/
theorem spec_C10_frequency_invariant_witness :
    bandMin EU_BAND
      ≤ ((tea5767_setStation (tea5767_construct EU_BAND) 200).1)._frequency :=
  (spec_C10_frequency_invariant EU_BAND (tea5767_construct EU_BAND) 200 0 rfl).2.1.1

/-- C7: every driver operation is deterministic: from equal driver states
and equal bytes returned by the bus, each operation produces equal
resulting states, equal bytes written to the bus and equal returned
values. -/
theorem spec_C7_deterministic (s1 s2 : tea5767_i2c) (bus1 bus2 : ℕ → ℕ)
    (f : ℚ) (m : Bool) (a b : ℕ)
    (hs : s1 = s2) (hb : ∀ i, bus1 i = bus2 i) :
    tea5767_setStation s1 f = tea5767_setStation s2 f
    ∧ tea5767_setStationInc s1 f = tea5767_setStationInc s2 f
    ∧ tea5767_getStation s1 bus1 = tea5767_getStation s2 bus2
    ∧ tea5767_getReady s1 bus1 = tea5767_getReady s2 bus2
    ∧ printStatus s1 bus1 = printStatus s2 bus2
    ∧ tea5767_read_raw bus1 = tea5767_read_raw bus2
    ∧ tea5767_write_registers s1 = tea5767_write_registers s2
    ∧ tea5767_setSearch s1 a b = tea5767_setSearch s2 a b
    ∧ tea5767_setMute s1 m = tea5767_setMute s2 m
    ∧ tea5767_setSoftMute s1 m = tea5767_setSoftMute s2 m
    ∧ tea5767_setMuteLeft s1 m = tea5767_setMuteLeft s2 m
    ∧ tea5767_setMuteRight s1 m = tea5767_setMuteRight s2 m
    ∧ tea5767_setStandby s1 m = tea5767_setStandby s2 m
    ∧ tea5767_setStereo s1 m = tea5767_setStereo s2 m
    ∧ tea5767_checkFreqLimits s1 f = tea5767_checkFreqLimits s2 f
    ∧ tea5767_begin s1 = tea5767_begin s2 := by
  subst hs
  have hbus : bus1 = bus2 := funext hb
  subst hbus
  exact ⟨rfl, rfl, rfl, rfl, rfl, rfl, rfl, rfl, rfl, rfl, rfl, rfl, rfl,
    rfl, rfl, rfl⟩

/-- Witness for C7: determinism applied to a concrete state and bus. -/
theorem spec_C7_deterministic_witness :
    tea5767_setStation (tea5767_construct EU_BAND) 100
      = tea5767_setStation (tea5767_construct EU_BAND) 100 :=
  (spec_C7_deterministic (tea5767_construct EU_BAND) (tea5767_construct EU_BAND)
    (fun _ => 0) (fun _ => 0) 100 true 0 1 rfl (fun _ => rfl)).1

theorem decode_write (t : tea5767_i2c) (h : pllWord t._frequency < 16384) :
    decodeFreq ((tea5767_write_registers t).getD 0 0 % 256)
        ((tea5767_write_registers t).getD 1 0 % 256)
      = ((pllWord t._frequency : ℚ) * 32768 / 4 - 225000) / 1000000 := by
  have h0 : (tea5767_write_registers t).getD 0 0
      = t._mute_mode % 2 * 128 + t._searchMode % 2 * 64
        + pllWord t._frequency / 256 % 64 := rfl
  have h1 : (tea5767_write_registers t).getD 1 0 = pllWord t._frequency % 256 := rfl
  have harg : (tea5767_write_registers t).getD 0 0 % 256 % 64 * 256
      + (tea5767_write_registers t).getD 1 0 % 256 = pllWord t._frequency := by
    rw [h0, h1]; omega
  unfold decodeFreq
  rw [harg]

theorem pllWord_decode_bounds (f : ℚ) (h76 : 76 ≤ f) (h108 : f ≤ 108) :
    pllWord f < 16384
    ∧ f - 8192 / 1000000 < ((pllWord f : ℚ) * 32768 / 4 - 225000) / 1000000
    ∧ ((pllWord f : ℚ) * 32768 / 4 - 225000) / 1000000 ≤ f := by
  have hx0 : (0:ℚ) ≤ (f * 1000000 + 225000) * 4 / 32768 :=
    div_nonneg (by linarith) (by norm_num)
  have hfl0 : (0:ℤ) ≤ Int.floor ((f * 1000000 + 225000) * 4 / 32768) :=
    Int.floor_nonneg.mpr hx0
  have hq1 : ((Int.floor ((f * 1000000 + 225000) * 4 / 32768) : ℤ) : ℚ)
      ≤ (f * 1000000 + 225000) * 4 / 32768 := Int.floor_le _
  have hq2 : (f * 1000000 + 225000) * 4 / 32768
      < ((Int.floor ((f * 1000000 + 225000) * 4 / 32768) : ℤ) : ℚ) + 1 :=
    Int.lt_floor_add_one _
  have hxlt : (f * 1000000 + 225000) * 4 / 32768 < ((16384 : ℤ) : ℚ) := by
    rw [div_lt_iff₀ (by norm_num : (0:ℚ) < 32768)]
    push_cast
    linarith
  have hfllt : Int.floor ((f * 1000000 + 225000) * 4 / 32768) < 16384 :=
    Int.floor_lt.mpr hxlt
  have hlt : pllWord f < 16384 := by
    unfold pllWord
    omega
  have hcast : (pllWord f : ℚ)
      = ((Int.floor ((f * 1000000 + 225000) * 4 / 32768) : ℤ) : ℚ) := by
    unfold pllWord
    have := Int.toNat_of_nonneg hfl0
    exact_mod_cast congrArg (fun z : ℤ => (z : ℚ)) this
  refine ⟨hlt, ?_, ?_⟩
  · rw [hcast, lt_div_iff₀ (by norm_num : (0:ℚ) < 1000000)]
    linarith
  · rw [hcast, div_le_iff₀ (by norm_num : (0:ℚ) < 1000000)]
    linarith

/-- C3: for every frequency in range for the current band, encoding it into
the 5-byte register layout through `tea5767_setStation` /
`tea5767_write_registers` and decoding the frequency bytes back through
`tea5767_getStation` returns the frequency up to the quantization step of
the chip's 14-bit PLL word (one PLL step is 8192 Hz, i.e. 8192/1000000
MHz): the decoded value is at most the original and less than one step
below it. -/
theorem spec_C3_frequency_roundtrip (s : tea5767_i2c) (f : ℚ)
    (h1 : bandMin s._band_mode ≤ f) (h2 : f ≤ bandMax s._band_mode) :
    f - 8192 / 1000000
        < (tea5767_getStation (tea5767_setStation s f).1
            (fun i => ((tea5767_setStation s f).2).getD i 0)).2
    ∧ (tea5767_getStation (tea5767_setStation s f).1
        (fun i => ((tea5767_setStation s f).2).getD i 0)).2 ≤ f := by
  have hf76 : (76:ℚ) ≤ f := by
    unfold bandMin MIN_FREQ_JP MIN_FREQ_EU at h1
    split_ifs at h1 <;> linarith
  have hf108 : f ≤ 108 := by
    unfold bandMax MAX_FREQ_JP MAX_FREQ_EU at h2
    split_ifs at h2 <;> linarith
  have hb := pllWord_decode_bounds f hf76 hf108
  have ht : ((tea5767_setStation s f).1)._frequency = f := by
    show tea5767_checkFreqLimits s f = f
    rw [checkFreqLimits_eq_clamp, min_eq_right h2, max_eq_right h1]
  have hlt : pllWord (((tea5767_setStation s f).1)._frequency) < 16384 := by
    rw [ht]; exact hb.1
  have hdec : (tea5767_getStation (tea5767_setStation s f).1
      (fun i => ((tea5767_setStation s f).2).getD i 0)).2
      = decodeFreq
          ((tea5767_write_registers (tea5767_setStation s f).1).getD 0 0 % 256)
          ((tea5767_write_registers (tea5767_setStation s f).1).getD 1 0 % 256) := rfl
  rw [hdec, decode_write _ hlt, ht]
  exact ⟨hb.2.1, hb.2.2⟩

/-- Witness for C3: the round trip at 100 MHz on a European-band driver
loses less than one PLL quantization step. -/
theorem spec_C3_frequency_roundtrip_witness :
    (100:ℚ) - 8192 / 1000000
      < (tea5767_getStation (tea5767_setStation (tea5767_construct EU_BAND) 100).1
          (fun i =>
            ((tea5767_setStation (tea5767_construct EU_BAND) 100).2).getD i 0)).2 :=
  (spec_C3_frequency_roundtrip (tea5767_construct EU_BAND) 100
    (by norm_num [bandMin, tea5767_construct, JP_BAND, EU_BAND, MIN_FREQ_EU])
    (by norm_num [bandMax, tea5767_construct, JP_BAND, EU_BAND, MAX_FREQ_EU])).1
